import Mathlib

/-
  Shallow embedding of the bamboo-rescue backend core: the case lifecycle
  coordinator (internal/service/case_service.go), the case repository
  (internal/repository, case repository file), the volunteer matcher
  (internal/repository, user repository file: FindAvailableVolunteers) and
  the geo primitives (internal/domain/entity/geopoint.go).

  Modelling conventions:
  - Go float64 is modelled as the real numbers; Go int as the integers.
  - uuid.New() calls are modelled by explicit fresh-id parameters; time.Now()
    by an explicit `now : Nat` parameter.
  - Pointers that may be nil are modelled as Option.
  - Storage (gorm) is modelled as an explicit database state `DB` of lists of
    rows; a gorm transaction is one Lean function producing the next state;
    storage failures are not modelled (the storage collaborator is assumed
    reliable), so only domain errors appear in the `Except` results.
  - Fire-and-forget goroutines that mutate storage (counter increments and
    the completion aggregation) are modelled as sequentially applied effects
    of the triggering operation; best-effort push notifications have no
    storage effect and are omitted.
-/

namespace BambooRescue

/-! ## Enums (internal/domain/enum) -/

inductive CaseStatus
  | pending | accepted | inProgress | resolved | cancelled | expired
  deriving DecidableEq, Repr

/-- CaseStatus.IsActive from the enum package. -/
def CaseStatus.isActive : CaseStatus → Bool
  | .pending => true
  | .accepted => true
  | .inProgress => true
  | _ => false

inductive VolunteerStatus
  | accepted | enRoute | onSite | handling | completed | withdrawn
  deriving DecidableEq, Repr

inductive CaseType
  | animal | flood | accident
  deriving DecidableEq, Repr

inductive Urgency
  | low | medium | high | critical
  deriving DecidableEq, Repr

inductive UpdateType
  | statusChange | volunteerJoined | volunteerUpdate | volunteerWithdrawn | reporterUpdate | system
  deriving DecidableEq, Repr

inductive AnimalType
  | dog | cat | bird | other
  deriving DecidableEq, Repr

inductive AnimalCondition
  | injured | trapped | sick | abandoned | otherCondition
  deriving DecidableEq, Repr

inductive AccidentType
  | traffic | fall | fire | drowning | electric | otherAccident
  deriving DecidableEq, Repr

/-! ## Application errors (pkg apperror) -/

structure AppError where
  code : String
  message : String
  status : Nat
  deriving DecidableEq, Repr

def errCaseNotFound : AppError := ⟨"CASE_NOT_FOUND", "Case not found", 404⟩

def errUserNotFound : AppError := ⟨"USER_NOT_FOUND", "User not found", 404⟩

def errForbidden : AppError := ⟨"FORBIDDEN", "Forbidden", 403⟩

/-- apperror.NewAppError. -/
def newAppError (code message : String) (status : Nat) : AppError :=
  ⟨code, message, status⟩

/-! ## Geo primitives (internal/domain/entity/geopoint.go) -/

/-- GeoPoint with latitude and longitude in degrees. -/
structure GeoPoint where
  latitude : ℝ
  longitude : ℝ

/-- math.Atan2 from the Go standard library, by its documented semantics. -/
noncomputable def mathAtan2 (y x : ℝ) : ℝ :=
  if 0 < x then Real.arctan (y / x)
  else if x < 0 ∧ 0 ≤ y then Real.arctan (y / x) + Real.pi
  else if x < 0 ∧ y < 0 then Real.arctan (y / x) - Real.pi
  else if x = 0 ∧ 0 < y then Real.pi / 2
  else if x = 0 ∧ y < 0 then -(Real.pi / 2)
  else 0

def earthRadiusKm : ℝ := 6371

/-- GeoPoint.DistanceKm: great-circle distance via the Haversine formula.
The Go receiver-nil check cannot arise here because points are values. -/
noncomputable def GeoPoint.distanceKm (g other : GeoPoint) : ℝ :=
  let lat1Rad := g.latitude * (Real.pi / 180)
  let lat2Rad := other.latitude * (Real.pi / 180)
  let deltaLat := (other.latitude - g.latitude) * (Real.pi / 180)
  let deltaLng := (other.longitude - g.longitude) * (Real.pi / 180)
  let a := Real.sin (deltaLat / 2) * Real.sin (deltaLat / 2) +
    Real.cos lat1Rad * Real.cos lat2Rad * Real.sin (deltaLng / 2) * Real.sin (deltaLng / 2)
  let c := 2 * mathAtan2 (Real.sqrt a) (Real.sqrt (1 - a))
  earthRadiusKm * c

/-- DistanceKmBetween. -/
noncomputable def distanceKmBetween (lat1 lng1 lat2 lng2 : ℝ) : ℝ :=
  (GeoPoint.mk lat1 lng1).distanceKm (GeoPoint.mk lat2 lng2)

structure BoundingBox where
  minLat : ℝ
  maxLat : ℝ
  minLng : ℝ
  maxLng : ℝ

/-- NewBoundingBox: axis-aligned box around a center with a radius in km. -/
noncomputable def newBoundingBox (lat lng radiusKm : ℝ) : BoundingBox :=
  let kmPerDegLat : ℝ := 111
  let latDelta := radiusKm / kmPerDegLat
  let lngDelta := radiusKm / (kmPerDegLat * Real.cos (lat * Real.pi / 180))
  ⟨lat - latDelta, lat + latDelta, lng - lngDelta, lng + lngDelta⟩

/-- BoundingBox.Contains. -/
def BoundingBox.containsPt (bb : BoundingBox) (lat lng : ℝ) : Prop :=
  bb.minLat ≤ lat ∧ lat ≤ bb.maxLat ∧ bb.minLng ≤ lng ∧ lng ≤ bb.maxLng

/-! ## Data model (internal/domain/entity)

Times are modelled as natural numbers, uuids as natural numbers. The three
type-specific detail tables are modelled through the optional detail
sub-records carried by the case entity (the Go entity struct carries them as
relations and the repository transaction persists the case row and the
matching detail row together); `repoCreate` therefore persists case and detail
in a single atomic step, exactly as the gorm transaction does. -/

structure AnimalDetails where
  id : Nat
  caseId : Nat
  animalType : AnimalType
  animalTypeOther : Option String
  condition : AnimalCondition
  conditionDescription : Option String
  estimatedCount : Int

structure FloodDetails where
  id : Nat
  caseId : Nat
  peopleCount : Option Int
  hasChildren : Bool
  hasElderly : Bool
  hasDisabled : Bool
  waterLevelCm : Option Int
  floorLevel : Option Int
  hasPower : Option Bool
  hasFoodWater : Option Bool
  medicalNeeds : Option String

structure AccidentDetails where
  id : Nat
  caseId : Nat
  accidentType : AccidentType
  victimCount : Int
  hasUnconscious : Bool
  hasBleeding : Bool
  hasFracture : Bool
  isTrapped : Bool
  hazardPresent : Bool
  hazardDescription : Option String

structure Case where
  id : Nat
  caseType : CaseType
  status : CaseStatus
  urgency : Urgency
  latitude : ℝ
  longitude : ℝ
  address : Option String
  locationNote : Option String
  title : String
  description : Option String
  reporterId : Option Nat
  reporterName : Option String
  reporterPhone : String
  isAnonymous : Bool
  volunteerCount : Int
  maxVolunteers : Int
  acceptedAt : Option Nat
  resolvedAt : Option Nat
  animalDetails : Option AnimalDetails
  floodDetails : Option FloodDetails
  accidentDetails : Option AccidentDetails

structure CaseVolunteer where
  id : Nat
  caseId : Nat
  volunteerId : Nat
  status : VolunteerStatus
  acceptedLatitude : Option ℝ
  acceptedLongitude : Option ℝ
  distanceKm : Option ℝ
  acceptedAt : Nat
  arrivedAt : Option Nat
  completedAt : Option Nat
  note : Option String

structure CaseUpdateRec where
  id : Nat
  caseId : Nat
  updateType : UpdateType
  userId : Option Nat
  content : Option String
  oldStatus : Option CaseStatus
  newStatus : Option CaseStatus
  mediaURLs : List String

structure User where
  id : Nat
  displayName : String
  isAvailable : Bool
  isActive : Bool
  latitude : Option ℝ
  longitude : Option ℝ
  totalCasesReported : Int
  totalCasesResolved : Int

/-- The durable storage state: the four tables the modelled operations touch. -/
structure DB where
  cases : List Case
  volunteers : List CaseVolunteer
  updates : List CaseUpdateRec
  users : List User

/-! ## Case repository (caseRepository) and user repository (userRepository) -/

/-- caseRepository.GetByID. -/
def caseRepoGetByID (db : DB) (id : Nat) : Option Case :=
  db.cases.find? (fun c => c.id == id)

/-- userRepository.GetByID. -/
def userRepoGetByID (db : DB) (id : Nat) : Option User :=
  db.users.find? (fun u => u.id == id)

/-- caseRepository.GetVolunteer. -/
def caseRepoGetVolunteer (db : DB) (caseId volunteerId : Nat) : Option CaseVolunteer :=
  db.volunteers.find? (fun cv => cv.caseId == caseId && cv.volunteerId == volunteerId)

/-- caseRepository.GetVolunteersByCaseID. Rows are kept in insertion order,
which realises the accepted_at ASC ordering of the query for the sequential
histories modelled here. -/
def caseRepoGetVolunteersByCaseID (db : DB) (caseId : Nat) : List CaseVolunteer :=
  db.volunteers.filter (fun cv => cv.caseId == caseId)

/-- caseRepository.Create: one transaction inserting the case row together
with its detail sub-records and the initial system update. -/
def caseRepoCreate (db : DB) (c : Case) (updateId : Nat) : DB :=
  { db with
    cases := db.cases ++ [c]
    updates := db.updates ++
      [{ id := updateId, caseId := c.id, updateType := .system, userId := none,
         content := some "Case created", oldStatus := none, newStatus := some c.status,
         mediaURLs := [] }] }

/-- caseRepository.Update (gorm Save by primary key). -/
def caseRepoUpdate (db : DB) (c : Case) : DB :=
  { db with cases := db.cases.map (fun (x : Case) => if x.id == c.id then c else x) }

/-- caseRepository.UpdateStatus. -/
def caseRepoUpdateStatus (db : DB) (id : Nat) (status : CaseStatus) (now : Nat) : DB :=
  { db with
    cases := db.cases.map (fun (c : Case) =>
      if c.id == id then
        { c with
          status := status
          acceptedAt := if status == .accepted then some now else c.acceptedAt
          resolvedAt := if status == .resolved then some now else c.resolvedAt }
      else c) }

/-- caseRepository.Delete: soft delete by setting the status to cancelled. -/
def caseRepoDelete (db : DB) (id : Nat) : DB :=
  { db with
    cases := db.cases.map (fun (c : Case) => if c.id == id then { c with status := .cancelled } else c) }

/-- caseRepository.AddVolunteer: one transaction inserting the volunteer row,
incrementing the case's volunteer_count, and flipping a pending case to
accepted with an accepted_at stamp. -/
def caseRepoAddVolunteer (db : DB) (cv : CaseVolunteer) (now : Nat) : DB :=
  let db1 := { db with volunteers := db.volunteers ++ [cv] }
  let db2 := { db1 with
    cases := db1.cases.map (fun (c : Case) =>
      if c.id == cv.caseId then { c with volunteerCount := c.volunteerCount + 1 } else c) }
  { db2 with
    cases := db2.cases.map (fun (c : Case) =>
      if c.id == cv.caseId && c.status == .pending then
        { c with status := .accepted, acceptedAt := some now }
      else c) }

/-- caseRepository.ReactivateVolunteer: one transaction resetting the row to
accepted with fresh accepted_at/location fields and cleared arrival/completion
stamps, then incrementing the case's volunteer_count. -/
def caseRepoReactivateVolunteer (db : DB) (caseId volunteerId : Nat)
    (latitude longitude distanceKm : Option ℝ) (now : Nat) : DB :=
  let db1 := { db with
    volunteers := db.volunteers.map (fun (cv : CaseVolunteer) =>
      if cv.caseId == caseId && cv.volunteerId == volunteerId then
        { cv with
          status := .accepted
          acceptedAt := now
          acceptedLatitude := latitude
          acceptedLongitude := longitude
          distanceKm := distanceKm
          arrivedAt := none
          completedAt := none }
      else cv) }
  { db1 with
    cases := db1.cases.map (fun (c : Case) =>
      if c.id == caseId then { c with volunteerCount := c.volunteerCount + 1 } else c) }

/-- caseRepository.RemoveVolunteer: one transaction marking the row withdrawn
and decrementing the case's volunteer_count, floored at zero (GREATEST). -/
def caseRepoRemoveVolunteer (db : DB) (caseId volunteerId : Nat) : DB :=
  let db1 := { db with
    volunteers := db.volunteers.map (fun (cv : CaseVolunteer) =>
      if cv.caseId == caseId && cv.volunteerId == volunteerId then
        { cv with status := .withdrawn }
      else cv) }
  { db1 with
    cases := db1.cases.map (fun (c : Case) =>
      if c.id == caseId then { c with volunteerCount := max 0 (c.volunteerCount - 1) } else c) }

/-- caseRepository.UpdateVolunteerStatus: stamps arrived_at on on_site and
completed_at on completed. -/
def caseRepoUpdateVolunteerStatus (db : DB) (caseId volunteerId : Nat)
    (status : VolunteerStatus) (now : Nat) : DB :=
  { db with
    volunteers := db.volunteers.map (fun (cv : CaseVolunteer) =>
      if cv.caseId == caseId && cv.volunteerId == volunteerId then
        { cv with
          status := status
          arrivedAt := if status == .onSite then some now else cv.arrivedAt
          completedAt := if status == .completed then some now else cv.completedAt }
      else cv) }

/-- caseRepository.CreateUpdate. -/
def caseRepoCreateUpdate (db : DB) (u : CaseUpdateRec) : DB :=
  { db with updates := db.updates ++ [u] }

/-- userRepository.IncrementCasesReported. -/
def userRepoIncrementCasesReported (db : DB) (userId : Nat) : DB :=
  { db with
    users := db.users.map (fun (u : User) =>
      if u.id == userId then { u with totalCasesReported := u.totalCasesReported + 1 } else u) }

/-- userRepository.IncrementCasesResolved. -/
def userRepoIncrementCasesResolved (db : DB) (userId : Nat) : DB :=
  { db with
    users := db.users.map (fun (u : User) =>
      if u.id == userId then { u with totalCasesResolved := u.totalCasesResolved + 1 } else u) }

/-! ## Request DTOs (internal/handler/dto/request) -/

structure CreateCaseRequest where
  caseType : CaseType
  urgency : Urgency
  latitude : ℝ
  longitude : ℝ
  address : Option String
  locationNote : Option String
  title : String
  description : Option String
  reporterName : Option String
  reporterPhone : String
  isAnonymous : Bool
  animalType : Option AnimalType
  animalTypeOther : Option String
  animalCondition : Option AnimalCondition
  conditionDescription : Option String
  estimatedCount : Option Int
  peopleCount : Option Int
  hasChildren : Option Bool
  hasElderly : Option Bool
  hasDisabled : Option Bool
  waterLevelCm : Option Int
  floorLevel : Option Int
  hasPower : Option Bool
  hasFoodWater : Option Bool
  medicalNeeds : Option String
  accidentType : Option AccidentType
  victimCount : Option Int
  hasUnconscious : Option Bool
  hasBleeding : Option Bool
  hasFracture : Option Bool
  isTrapped : Option Bool
  hazardPresent : Option Bool
  hazardDescription : Option String
  mediaURLs : List String

structure AcceptCaseRequest where
  latitude : Option ℝ
  longitude : Option ℝ

structure UpdateVolunteerStatusRequest where
  status : VolunteerStatus
  note : Option String

structure UpdateCaseRequest where
  title : Option String
  description : Option String
  urgency : Option Urgency
  status : Option CaseStatus
  address : Option String
  locationNote : Option String

/-! ## Case lifecycle coordinator (caseService) -/

/-- getIntOrDefault helper. -/
def getIntOrDefault (ptr : Option Int) (dflt : Int) : Int :=
  match ptr with
  | none => dflt
  | some v => v

/-- getBoolOrDefault helper. -/
def getBoolOrDefault (ptr : Option Bool) (dflt : Bool) : Bool :=
  match ptr with
  | none => dflt
  | some v => v

/-- getStatusText helper. -/
def getStatusText (status : VolunteerStatus) : String :=
  match status with
  | .enRoute => "đang trên đường đến"
  | .onSite => "đã đến hiện trường"
  | .handling => "đang xử lý"
  | .completed => "đã hoàn thành"
  | .withdrawn => "đã rút khỏi case"
  | _ => "cập nhật trạng thái"

/-- caseService.Create. The entity is built with status pending and the
type-specific detail block attached only when its discriminating request
fields are present; no validation is performed. volunteerCount 0 and
maxVolunteers 5 are the gorm column defaults applied on insert. The
reported-cases counter increment (a goroutine in Go) is applied
sequentially; the notification fan-out has no storage effect. -/
def caseServiceCreate (db : DB) (req : CreateCaseRequest) (userId : Option Nat)
    (caseId detailId updateId : Nat) : Case × DB :=
  let c0 : Case :=
    { id := caseId, caseType := req.caseType, status := .pending, urgency := req.urgency
      latitude := req.latitude, longitude := req.longitude, address := req.address
      locationNote := req.locationNote, title := req.title, description := req.description
      reporterId := userId, reporterName := req.reporterName
      reporterPhone := req.reporterPhone, isAnonymous := req.isAnonymous
      volunteerCount := 0, maxVolunteers := 5, acceptedAt := none, resolvedAt := none
      animalDetails := none, floodDetails := none, accidentDetails := none }
  let c : Case :=
    match req.caseType with
    | .animal =>
      match req.animalType, req.animalCondition with
      | some aty, some cond =>
        { c0 with animalDetails := some {
            id := detailId, caseId := caseId, animalType := aty
            animalTypeOther := req.animalTypeOther, condition := cond
            conditionDescription := req.conditionDescription
            estimatedCount := getIntOrDefault req.estimatedCount 1 } }
      | _, _ => c0
    | .flood =>
      { c0 with floodDetails := some {
          id := detailId, caseId := caseId, peopleCount := req.peopleCount
          hasChildren := getBoolOrDefault req.hasChildren false
          hasElderly := getBoolOrDefault req.hasElderly false
          hasDisabled := getBoolOrDefault req.hasDisabled false
          waterLevelCm := req.waterLevelCm, floorLevel := req.floorLevel
          hasPower := req.hasPower, hasFoodWater := req.hasFoodWater
          medicalNeeds := req.medicalNeeds } }
    | .accident =>
      match req.accidentType with
      | some aty =>
        { c0 with accidentDetails := some {
            id := detailId, caseId := caseId, accidentType := aty
            victimCount := getIntOrDefault req.victimCount 1
            hasUnconscious := getBoolOrDefault req.hasUnconscious false
            hasBleeding := getBoolOrDefault req.hasBleeding false
            hasFracture := getBoolOrDefault req.hasFracture false
            isTrapped := getBoolOrDefault req.isTrapped false
            hazardPresent := getBoolOrDefault req.hazardPresent false
            hazardDescription := req.hazardDescription } }
      | none => c0
  let db1 := caseRepoCreate db c updateId
  let db2 :=
    match userId with
    | some uid => userRepoIncrementCasesReported db1 uid
    | none => db1
  (c, db2)

/-- caseService.Accept. Location and distance are computed only when both
coordinates are supplied; the best-effort reporter notification has no
storage effect. -/
noncomputable def caseServiceAccept (db : DB) (caseId volunteerId : Nat)
    (req : AcceptCaseRequest) (cvId updateId now : Nat) : Except AppError DB :=
  match caseRepoGetByID db caseId with
  | none => .error errCaseNotFound
  | some c =>
    if c.status.isActive = false then
      .error (newAppError "CASE_CLOSED" "This case is no longer accepting volunteers" 400)
    else if c.volunteerCount ≥ c.maxVolunteers then
      .error (newAppError "MAX_VOLUNTEERS" "Maximum volunteers reached for this case" 400)
    else
      match userRepoGetByID db volunteerId with
      | none => .error errUserNotFound
      | some volunteer =>
        let locDist : Option ℝ × Option ℝ × Option ℝ :=
          match req.latitude, req.longitude with
          | some lat, some lng =>
            (some lat, some lng, some (distanceKmBetween c.latitude c.longitude lat lng))
          | _, _ => (none, none, none)
        let joinUpdate : CaseUpdateRec :=
          { id := updateId, caseId := caseId, updateType := .volunteerJoined
            userId := some volunteerId
            content := some (volunteer.displayName ++ " đã nhận case này")
            oldStatus := none, newStatus := none, mediaURLs := [] }
        match caseRepoGetVolunteer db caseId volunteerId with
        | some existing =>
          if existing.status = .withdrawn then
            .ok (caseRepoCreateUpdate
              (caseRepoReactivateVolunteer db caseId volunteerId
                locDist.1 locDist.2.1 locDist.2.2 now) joinUpdate)
          else
            .error (newAppError "ALREADY_ACCEPTED" "You have already accepted this case" 400)
        | none =>
          let cv : CaseVolunteer :=
            { id := cvId, caseId := caseId, volunteerId := volunteerId, status := .accepted
              acceptedLatitude := locDist.1, acceptedLongitude := locDist.2.1
              distanceKm := locDist.2.2, acceptedAt := now
              arrivedAt := none, completedAt := none, note := none }
          .ok (caseRepoCreateUpdate (caseRepoAddVolunteer db cv now) joinUpdate)

/-- caseService.Withdraw. The guard only checks that a volunteer row exists,
regardless of its status. -/
def caseServiceWithdraw (db : DB) (caseId volunteerId : Nat) (updateId : Nat) :
    Except AppError DB :=
  match caseRepoGetVolunteer db caseId volunteerId with
  | none => .error (newAppError "NOT_ACCEPTED" "You have not accepted this case" 400)
  | some _ =>
    let volunteerName :=
      match userRepoGetByID db volunteerId with
      | some u => u.displayName
      | none => "A volunteer"
    let db1 := caseRepoRemoveVolunteer db caseId volunteerId
    .ok (caseRepoCreateUpdate db1
      { id := updateId, caseId := caseId, updateType := .volunteerWithdrawn
        userId := some volunteerId, content := some (volunteerName ++ " has left this case")
        oldStatus := none, newStatus := none, mediaURLs := [] })

/-- caseService.checkCaseCompletion: evaluates all volunteer rows of the case;
when the set is non-empty and every row is completed or withdrawn, resolves
the case and credits every completed volunteer's resolved counter. -/
def checkCaseCompletion (db : DB) (caseId : Nat) (now : Nat) : DB :=
  let volunteers := caseRepoGetVolunteersByCaseID db caseId
  let allDone := volunteers.all (fun v => v.status == .completed || v.status == .withdrawn)
  if allDone && !volunteers.isEmpty then
    let db1 := caseRepoUpdateStatus db caseId .resolved now
    volunteers.foldl
      (fun acc v =>
        if v.status == .completed then userRepoIncrementCasesResolved acc v.volunteerId
        else acc)
      db1
  else db

/-- caseService.UpdateVolunteerStatus. The completion aggregation (a goroutine
in Go) is applied sequentially when the new status is completed. -/
def caseServiceUpdateVolunteerStatus (db : DB) (caseId volunteerId : Nat)
    (req : UpdateVolunteerStatusRequest) (updateId now : Nat) : Except AppError DB :=
  match caseRepoGetVolunteer db caseId volunteerId with
  | none => .error (newAppError "NOT_ACCEPTED" "You have not accepted this case" 400)
  | some _ =>
    let db1 := caseRepoUpdateVolunteerStatus db caseId volunteerId req.status now
    let volunteerName :=
      match userRepoGetByID db volunteerId with
      | some u => u.displayName
      | none => "Tình nguyện viên"
    let content := volunteerName ++ " " ++ getStatusText req.status ++
      (match req.note with
       | some n => if n ≠ "" then ": " ++ n else ""
       | none => "")
    let db2 := caseRepoCreateUpdate db1
      { id := updateId, caseId := caseId, updateType := .volunteerUpdate
        userId := some volunteerId, content := some content
        oldStatus := none, newStatus := none, mediaURLs := [] }
    let db3 := if req.status = .completed then checkCaseCompletion db2 caseId now else db2
    .ok db3

/-- caseService.Update: only the reporter may mutate; a status field in the
patch additionally logs a status-change update. -/
def caseServiceUpdate (db : DB) (id userId : Nat) (req : UpdateCaseRequest)
    (updateId : Nat) : Except AppError (Case × DB) :=
  match caseRepoGetByID db id with
  | none => .error errCaseNotFound
  | some c =>
    if c.reporterId = none ∨ c.reporterId ≠ some userId then .error errForbidden
    else
      let c1 := match req.title with
        | some t => { c with title := t }
        | none => c
      let c2 := match req.description with
        | some _ => { c1 with description := req.description }
        | none => c1
      let c3 := match req.urgency with
        | some u => { c2 with urgency := u }
        | none => c2
      let stepStatus : Case × DB :=
        match req.status with
        | some s =>
          ({ c3 with status := s },
           caseRepoCreateUpdate db
             { id := updateId, caseId := c.id, updateType := .statusChange
               userId := some userId, content := none
               oldStatus := some c3.status, newStatus := some s, mediaURLs := [] })
        | none => (c3, db)
      let c4 := stepStatus.1
      let db1 := stepStatus.2
      let c5 := match req.address with
        | some _ => { c4 with address := req.address }
        | none => c4
      let c6 := match req.locationNote with
        | some _ => { c5 with locationNote := req.locationNote }
        | none => c5
      .ok (c6, caseRepoUpdate db1 c6)

/-- caseService.Delete: reporter-only soft delete. -/
def caseServiceDelete (db : DB) (id userId : Nat) : Except AppError DB :=
  match caseRepoGetByID db id with
  | none => .error errCaseNotFound
  | some c =>
    if c.reporterId = none ∨ c.reporterId ≠ some userId then .error errForbidden
    else .ok (caseRepoDelete db id)

/-! ## Volunteer matcher (userRepository.FindAvailableVolunteers) -/

/-- The row produced by the users LEFT JOIN user_preferences query; preference
columns are null when the user has no preferences row. -/
structure UserWithPrefs where
  user : User
  pushEnabled : Option Bool
  caseTypes : Option (List String)
  notificationRadiusKm : Option Int
  centerLatitude : Option ℝ
  centerLongitude : Option ℝ
  useCurrentLocation : Option Bool
  quietHoursStart : Option String
  quietHoursEnd : Option String

structure VolunteerWithDistance where
  user : User
  distanceKm : ℝ

/-- The WHERE clause of the candidate query: available, active, push not
explicitly disabled, and a live location present and inside the bounding box
(the two BETWEEN conditions are false on a null location in SQL, matching the
match-none branch here). -/
noncomputable def matchesCandidateQuery (bbox : BoundingBox) (r : UserWithPrefs) : Bool :=
  r.user.isAvailable && r.user.isActive &&
    (r.pushEnabled == none || r.pushEnabled == some true) &&
    (match r.user.latitude, r.user.longitude with
     | some ulat, some ulng =>
       decide (bbox.minLat ≤ ulat) && decide (ulat ≤ bbox.maxLat) &&
         decide (bbox.minLng ≤ ulng) && decide (ulng ≤ bbox.maxLng)
     | _, _ => false)

/-- The effective comparison point of the per-candidate loop: the fixed center
when useCurrentLocation is false and a center is set, else the live location;
none when neither is usable. -/
def effectiveLocation (r : UserWithPrefs) : Option (ℝ × ℝ) :=
  match r.useCurrentLocation, r.centerLatitude, r.centerLongitude with
  | some false, some clat, some clng => some (clat, clng)
  | _, _, _ =>
    match r.user.latitude, r.user.longitude with
    | some ulat, some ulng => some (ulat, ulng)
    | _, _ => none

/-- userRepository.FindAvailableVolunteers: bounding-box prefiltered candidate
query, per-candidate effective location, per-volunteer radius check
(default 10 km), case-type preference check, sort by distance, limit.
Push tokens are not modelled. -/
noncomputable def findAvailableVolunteers (rows : List UserWithPrefs) (lat lng : ℝ)
    (radiusKm : Int) (caseType : String) (lim : Int) : List VolunteerWithDistance :=
  let bbox := newBoundingBox lat lng (radiusKm : ℝ)
  let candidates := rows.filter (matchesCandidateQuery bbox)
  let volunteers := candidates.filterMap (fun (uwp : UserWithPrefs) =>
    match effectiveLocation uwp with
    | none => none
    | some pt =>
      let distance := distanceKmBetween lat lng pt.1 pt.2
      let userRadiusKm : Int :=
        match uwp.notificationRadiusKm with
        | none => 10
        | some r => r
      if distance > (userRadiusKm : ℝ) then none
      else
        match uwp.caseTypes with
        | some cts =>
          if caseType ≠ "" ∧ caseType ∉ cts then none
          else some ⟨uwp.user, distance⟩
        | none => some ⟨uwp.user, distance⟩)
  let sorted := volunteers.mergeSort (fun a b => decide (a.distanceKm ≤ b.distanceKm))
  if 0 < lim ∧ lim < (sorted.length : Int) then sorted.take lim.toNat else sorted

/-! ## Reachability: histories of the coordinator operations named by the
`volunteerCount` invariant (Create, Accept including reactivation, Withdraw,
UpdateVolunteerStatus), starting from an empty case store. -/

inductive Reachable : DB → Prop
  | init (users : List User) : Reachable ⟨[], [], [], users⟩
  | create (db : DB) (req : CreateCaseRequest) (userId : Option Nat)
      (caseId detailId updateId : Nat) (h : Reachable db) :
      Reachable (caseServiceCreate db req userId caseId detailId updateId).2
  | accept (db db' : DB) (caseId volunteerId : Nat) (req : AcceptCaseRequest)
      (cvId updateId now : Nat) (h : Reachable db)
      (hok : caseServiceAccept db caseId volunteerId req cvId updateId now = .ok db') :
      Reachable db'
  | withdraw (db db' : DB) (caseId volunteerId updateId : Nat) (h : Reachable db)
      (hok : caseServiceWithdraw db caseId volunteerId updateId = .ok db') :
      Reachable db'
  | updateVolunteerStatus (db db' : DB) (caseId volunteerId : Nat)
      (req : UpdateVolunteerStatusRequest) (updateId now : Nat) (h : Reachable db)
      (hok : caseServiceUpdateVolunteerStatus db caseId volunteerId req updateId now = .ok db') :
      Reachable db'

/-- The number of a case's volunteer rows whose status is not withdrawn. -/
def activeVolunteerCount (db : DB) (caseId : Nat) : Nat :=
  (db.volunteers.filter (fun v => v.caseId == caseId && v.status != .withdrawn)).length

/-- The denormalized-counter invariant claimed by the specification. -/
def volunteerCountInvariant (db : DB) : Prop :=
  ∀ c ∈ db.cases, 0 ≤ c.volunteerCount ∧
    c.volunteerCount = (activeVolunteerCount db c.id : Int)

/-- Extracts the success state of an operation (used to name intermediate
states of concrete histories). -/
def forceOk (e : Except AppError DB) : DB :=
  match e with
  | .ok db => db
  | .error _ => ⟨[], [], [], []⟩

/-! ## A concrete history: create, two accepts, then a double withdraw -/

def demoUsers : List User :=
  [⟨2, "V1", true, true, none, none, 0, 0⟩, ⟨3, "V2", true, true, none, none, 0, 0⟩]

def demoCreateReq : CreateCaseRequest :=
  { caseType := .flood, urgency := .high, latitude := 0, longitude := 0
    address := none, locationNote := none, title := "Flooded house with family"
    description := none, reporterName := none, reporterPhone := "0123456789"
    isAnonymous := false
    animalType := none, animalTypeOther := none, animalCondition := none
    conditionDescription := none, estimatedCount := none
    peopleCount := none, hasChildren := none, hasElderly := none, hasDisabled := none
    waterLevelCm := none, floorLevel := none, hasPower := none, hasFoodWater := none
    medicalNeeds := none
    accidentType := none, victimCount := none, hasUnconscious := none, hasBleeding := none
    hasFracture := none, isTrapped := none, hazardPresent := none, hazardDescription := none
    mediaURLs := [] }

def demoDb0 : DB := ⟨[], [], [], demoUsers⟩

/-- After Create: one pending flood case, id 100. -/
def demoDb1 : DB := (caseServiceCreate demoDb0 demoCreateReq none 100 101 102).2

/-- After volunteer 2 accepts. -/
noncomputable def demoDb2 : DB :=
  forceOk (caseServiceAccept demoDb1 100 2 ⟨none, none⟩ 200 103 10)

/-- After volunteer 3 accepts. -/
noncomputable def demoDb3 : DB :=
  forceOk (caseServiceAccept demoDb2 100 3 ⟨none, none⟩ 201 104 11)

/-- After volunteer 2 withdraws. -/
noncomputable def demoDb4 : DB := forceOk (caseServiceWithdraw demoDb3 100 2 105)

/-- After volunteer 2 withdraws a second time. -/
noncomputable def demoDb5 : DB := forceOk (caseServiceWithdraw demoDb4 100 2 106)

/-- A matcher row: an available volunteer located exactly at the demo case
location, with no preferences row. -/
def demoMatchRow : UserWithPrefs :=
  { user := ⟨5, "NearBy", true, true, some 0, some 0, 0, 0⟩
    pushEnabled := none, caseTypes := none, notificationRadiusKm := none
    centerLatitude := none, centerLongitude := none, useCurrentLocation := none
    quietHoursStart := none, quietHoursEnd := none }

/-- A matcher row: an available volunteer with a usable fixed center (and
useCurrentLocation false) but no live location. -/
def demoCenterOnlyRow : UserWithPrefs :=
  { user := ⟨6, "CenterOnly", true, true, none, none, 0, 0⟩
    pushEnabled := some true, caseTypes := none, notificationRadiusKm := none
    centerLatitude := some 0, centerLongitude := some 0, useCurrentLocation := some false
    quietHoursStart := none, quietHoursEnd := none }

/-- The flood detail row created for the demo case. -/
def demoFloodDetails : FloodDetails :=
  { id := 101, caseId := 100, peopleCount := none, hasChildren := false, hasElderly := false
    hasDisabled := false, waterLevelCm := none, floorLevel := none, hasPower := none
    hasFoodWater := none, medicalNeeds := none }

/-- The demo case as first persisted: pending, anonymous, no volunteers. -/
def demoCasePending : Case :=
  { id := 100, caseType := .flood, status := .pending, urgency := .high
    latitude := 0, longitude := 0, address := none, locationNote := none
    title := "Flooded house with family", description := none
    reporterId := none, reporterName := none, reporterPhone := "0123456789"
    isAnonymous := false, volunteerCount := 0, maxVolunteers := 5
    acceptedAt := none, resolvedAt := none
    animalDetails := none, floodDetails := some demoFloodDetails, accidentDetails := none }

/-- The demo case at the end of the history: accepted, with volunteerCount
driven to zero by the double withdraw while volunteer 3 is still active. -/
def demoCaseFinal : Case :=
  { demoCasePending with status := .accepted, acceptedAt := some 10, volunteerCount := 0 }

/-- An animal-case creation request carrying no animal detail fields. -/
def demoAnimalReqNoDetails : CreateCaseRequest :=
  { demoCreateReq with caseType := .animal, title := "Trapped animal on the roof" }

/-- The first demo volunteer user. -/
def demoUserV1 : User := ⟨2, "V1", true, true, none, none, 0, 0⟩

/-- Volunteer 2's row after their first withdrawal. -/
def demoVolunteer2Withdrawn : CaseVolunteer :=
  { id := 200, caseId := 100, volunteerId := 2, status := .withdrawn
    acceptedLatitude := none, acceptedLongitude := none, distanceKm := none
    acceptedAt := 10, arrivedAt := none, completedAt := none, note := none }

/-- The demo case row right after volunteer 2's first withdrawal. -/
def demoCaseAfterFirstWithdraw : Case :=
  { demoCasePending with status := .accepted, acceptedAt := some 10, volunteerCount := 1 }

/-! ### Facts about the Haversine distance -/

/-- For `0 ≤ a ≤ 1`, the `atan2` form of the Haversine angle is an arcsine. -/
theorem mathAtan2_sqrt_eq_arcsin {a : ℝ} (h0 : 0 ≤ a) (h1 : a ≤ 1) :
    mathAtan2 (Real.sqrt a) (Real.sqrt (1 - a)) = Real.arcsin (Real.sqrt a) := by
  rcases lt_or_eq_of_le h1 with hlt | heq
  · have hx : 0 < Real.sqrt (1 - a) := Real.sqrt_pos.mpr (by linarith)
    have hmem : Real.sqrt a ∈ Set.Ioo (-(1 : ℝ)) 1 := by
      refine ⟨lt_of_lt_of_le (by norm_num) (Real.sqrt_nonneg a), ?_⟩
      have : Real.sqrt a < Real.sqrt 1 := Real.sqrt_lt_sqrt h0 hlt
      simpa using this
    rw [mathAtan2, if_pos hx, Real.arcsin_eq_arctan hmem, Real.sq_sqrt h0]
  · have ha : a = 1 := heq
    subst ha
    have h10 : Real.sqrt (1 - 1) = 0 := by simp
    have h11 : Real.sqrt (1 : ℝ) = 1 := Real.sqrt_one
    rw [mathAtan2, h10, h11]
    norm_num [Real.arcsin_one]

/-- The Haversine quantity `a` is at most 1 when both cosines are nonnegative. -/
theorem haversine_a_le_one (p q w : ℝ) (hK : 0 ≤ Real.cos p * Real.cos q) :
    Real.sin ((q - p) / 2) * Real.sin ((q - p) / 2) +
      Real.cos p * Real.cos q * Real.sin (w / 2) * Real.sin (w / 2) ≤ 1 := by
  have e1 : Real.sin ((q - p) / 2) * Real.sin ((q - p) / 2) = (1 - Real.cos (q - p)) / 2 := by
    have h := Real.sin_sq_eq_half_sub ((q - p) / 2)
    have h2 : 2 * ((q - p) / 2) = q - p := by ring
    rw [h2] at h
    linear_combination h
  have e2 : Real.sin (w / 2) * Real.sin (w / 2) = (1 - Real.cos w) / 2 := by
    have h := Real.sin_sq_eq_half_sub (w / 2)
    have h2 : 2 * (w / 2) = w := by ring
    rw [h2] at h
    linear_combination h
  have e2' : Real.cos p * Real.cos q * Real.sin (w / 2) * Real.sin (w / 2) =
      Real.cos p * Real.cos q * ((1 - Real.cos w) / 2) := by
    linear_combination (Real.cos p * Real.cos q) * e2
  have e3 : Real.cos (q - p) = Real.cos q * Real.cos p + Real.sin q * Real.sin p :=
    Real.cos_sub q p
  have e4 : Real.cos (q + p) = Real.cos q * Real.cos p - Real.sin q * Real.sin p :=
    Real.cos_add q p
  have b1 : -1 ≤ Real.cos w := Real.neg_one_le_cos w
  have b2 : Real.cos (q + p) ≤ 1 := Real.cos_le_one (q + p)
  have hKw : Real.cos p * Real.cos q * ((1 - Real.cos w) / 2) ≤ Real.cos p * Real.cos q := by
    nlinarith [hK, b1]
  linarith [e1, e2', e3, e4, b2, hKw]

set_option maxHeartbeats 1000000 in
/-- Lower bound on the Haversine distance by the latitude separation:
one degree of latitude is at least 111 km on the 6371-km sphere. -/
theorem distanceKmBetween_ge_lat (lat1 lng1 lat2 lng2 : ℝ)
    (h1a : -90 ≤ lat1) (h1b : lat1 ≤ 90) (h2a : -90 ≤ lat2) (h2b : lat2 ≤ 90) :
    111 * |lat2 - lat1| ≤ distanceKmBetween lat1 lng1 lat2 lng2 := by
  have hpi := Real.pi_gt_d2
  have hpi0 : (0 : ℝ) < Real.pi := by linarith
  set p := lat1 * (Real.pi / 180) with hp
  set q := lat2 * (Real.pi / 180) with hq
  set w := (lng2 - lng1) * (Real.pi / 180) with hw
  set t := (lat2 - lat1) * (Real.pi / 180) / 2 with ht
  have hteq : t = (q - p) / 2 := by rw [ht, hp, hq]; ring
  -- both cosines are nonnegative for latitudes within [-90, 90]
  have hpmem : p ∈ Set.Icc (-(Real.pi / 2)) (Real.pi / 2) := by
    constructor
    · rw [hp]; nlinarith
    · rw [hp]; nlinarith
  have hqmem : q ∈ Set.Icc (-(Real.pi / 2)) (Real.pi / 2) := by
    constructor
    · rw [hq]; nlinarith
    · rw [hq]; nlinarith
  have hK : 0 ≤ Real.cos p * Real.cos q :=
    mul_nonneg (Real.cos_nonneg_of_mem_Icc hpmem) (Real.cos_nonneg_of_mem_Icc hqmem)
  set a := Real.sin t * Real.sin t +
    Real.cos p * Real.cos q * Real.sin (w / 2) * Real.sin (w / 2) with ha
  have h0a : 0 ≤ a := by
    have s1 := mul_self_nonneg (Real.sin t)
    have s2 := mul_self_nonneg (Real.sin (w / 2))
    have s3 : 0 ≤ Real.cos p * Real.cos q * (Real.sin (w / 2) * Real.sin (w / 2)) :=
      mul_nonneg hK s2
    rw [ha]
    nlinarith [s1, s3]
  have h1a' : a ≤ 1 := by
    have := haversine_a_le_one p q w hK
    rw [ha, hteq]
    linarith [this]
  -- the distance evaluates to an arcsine
  have hd : distanceKmBetween lat1 lng1 lat2 lng2 =
      earthRadiusKm * (2 * Real.arcsin (Real.sqrt a)) := by
    rw [distanceKmBetween, GeoPoint.distanceKm, mathAtan2_sqrt_eq_arcsin h0a h1a']
  -- the arcsine dominates the latitude half-angle
  have h180 : |lat2 - lat1| ≤ 180 := by
    rw [abs_le]; constructor <;> linarith
  have habst : |t| = |lat2 - lat1| * (Real.pi / 180) / 2 := by
    rw [ht, abs_div, abs_mul, abs_of_pos (by positivity : (0 : ℝ) < Real.pi / 180)]
    norm_num
  have htb : |t| ≤ Real.pi / 2 := by
    rw [habst]
    nlinarith [mul_nonneg (sub_nonneg.mpr h180) hpi0.le, abs_nonneg (lat2 - lat1)]
  have habs : |Real.sin t| = Real.sin |t| := by
    rcases le_or_lt 0 t with h | h
    · have h1 : t ≤ Real.pi := by
        rw [abs_of_nonneg h] at htb; linarith
      rw [abs_of_nonneg h, abs_of_nonneg (Real.sin_nonneg_of_nonneg_of_le_pi h h1)]
    · have hnn : 0 ≤ -t := by linarith
      have h1 : -t ≤ Real.pi := by
        rw [abs_of_neg h] at htb; linarith
      have hs : 0 ≤ Real.sin (-t) := Real.sin_nonneg_of_nonneg_of_le_pi hnn h1
      rw [Real.sin_neg] at hs
      rw [abs_of_neg h, Real.sin_neg, abs_of_nonpos (by linarith)]
  have hsqrt : |Real.sin t| ≤ Real.sqrt a := by
    have h1 : Real.sin t * Real.sin t ≤ a := by
      have s2 := mul_self_nonneg (Real.sin (w / 2))
      have s3 : 0 ≤ Real.cos p * Real.cos q * (Real.sin (w / 2) * Real.sin (w / 2)) :=
        mul_nonneg hK s2
      rw [ha]
      nlinarith [s3]
    calc |Real.sin t| = Real.sqrt (Real.sin t * Real.sin t) :=
          (Real.sqrt_mul_self_eq_abs (Real.sin t)).symm
      _ ≤ Real.sqrt a := Real.sqrt_le_sqrt h1
  have harc : |t| ≤ Real.arcsin (Real.sqrt a) := by
    have h1 : Real.arcsin |Real.sin t| ≤ Real.arcsin (Real.sqrt a) :=
      Real.monotone_arcsin hsqrt
    have h2 : Real.arcsin |Real.sin t| = |t| := by
      rw [habs, Real.arcsin_sin (by linarith [abs_nonneg t, htb]) (by linarith [htb])]
    linarith
  -- conclude: 6371 * 2 * |t| = 6371 * (pi/180) * |lat2 - lat1| ≥ 111 * |lat2 - lat1|
  rw [hd, earthRadiusKm]
  have hmul : |lat2 - lat1| * 3.14 ≤ |lat2 - lat1| * Real.pi :=
    mul_le_mul_of_nonneg_left hpi.le (abs_nonneg _)
  have hfinal : 111 * |lat2 - lat1| ≤ 6371 * (2 * |t|) := by
    rw [habst]
    linarith [hmul, abs_nonneg (lat2 - lat1)]
  linarith [hfinal, mul_le_mul_of_nonneg_left harc (by norm_num : (0 : ℝ) ≤ 2 * 6371)]

/-- The Haversine distance from a point to itself is zero. -/
theorem distanceKmBetween_self (lat lng : ℝ) : distanceKmBetween lat lng lat lng = 0 := by
  rw [distanceKmBetween, GeoPoint.distanceKm]
  simp only [sub_self, zero_mul, zero_div, Real.sin_zero, mul_zero, zero_add, add_zero,
    Real.sqrt_zero, sub_zero, Real.sqrt_one]
  rw [mathAtan2, if_pos (by norm_num : (0 : ℝ) < 1)]
  simp [Real.arctan_zero]

/-- The Haversine distance from the origin to the north pole at longitude 180,
evaluated in closed form: a quarter of the great circle. -/
theorem distanceKmBetween_origin_pole :
    distanceKmBetween 0 0 90 180 = 6371 * (Real.pi / 2) := by
  have harg1 : ((90 : ℝ) - 0) * (Real.pi / 180) / 2 = Real.pi / 4 := by ring
  have harg2 : (0 : ℝ) * (Real.pi / 180) = 0 := by ring
  have harg3 : (90 : ℝ) * (Real.pi / 180) = Real.pi / 2 := by ring
  have harg4 : ((180 : ℝ) - 0) * (Real.pi / 180) / 2 = Real.pi / 2 := by ring
  rw [distanceKmBetween, GeoPoint.distanceKm]
  simp only [harg1, harg2, harg3, harg4, Real.cos_zero, Real.cos_pi_div_two,
    Real.sin_pi_div_four, Real.sin_pi_div_two, one_mul, zero_mul, mul_zero, mul_one, add_zero]
  have h12 : Real.sqrt 2 / 2 * (Real.sqrt 2 / 2) = 1 / 2 := by
    rw [div_mul_div_comm, Real.mul_self_sqrt (by norm_num : (0 : ℝ) ≤ 2)]
    norm_num
  rw [h12, (by norm_num : (1 : ℝ) - 1 / 2 = 1 / 2)]
  have hs : (0 : ℝ) < Real.sqrt (1 / 2) := Real.sqrt_pos.mpr (by norm_num)
  rw [mathAtan2, if_pos hs, div_self (ne_of_gt hs), Real.arctan_one, earthRadiusKm]
  ring

/-- C8 (counterexample): the point (90, 180) lies within Haversine distance
10008 km of the center (0, 0), yet `NewBoundingBox((0,0), 10008)` does not
contain it: its longitude bound is 10008 / 111 < 180 degrees. -/
theorem c8_boundingBox_excludes_true_match :
    distanceKmBetween 0 0 90 180 ≤ 10008 ∧
      ¬ (newBoundingBox 0 0 10008).containsPt 90 180 := by
  constructor
  · rw [distanceKmBetween_origin_pole]
    nlinarith [Real.pi_lt_d6]
  · intro h
    have hlng := h.2.2.2
    rw [newBoundingBox] at hlng
    simp only [zero_mul, zero_div, Real.cos_zero, mul_one, zero_add] at hlng
    norm_num at hlng

/-- C8 (amended): the latitude bounds of the bounding box never exclude a point
within the given Haversine radius of the center (for latitudes in [-90, 90]);
the longitude bounds can exclude such a point, see the counterexample. -/
theorem c8_boundingBox_latitude_conservative (clat clng radiusKm plat plng : ℝ)
    (hc1 : -90 ≤ clat) (hc2 : clat ≤ 90) (hp1 : -90 ≤ plat) (hp2 : plat ≤ 90)
    (hd : distanceKmBetween clat clng plat plng ≤ radiusKm) :
    (newBoundingBox clat clng radiusKm).minLat ≤ plat ∧
      plat ≤ (newBoundingBox clat clng radiusKm).maxLat := by
  have h := distanceKmBetween_ge_lat clat clng plat plng hc1 hc2 hp1 hp2
  have habs : |plat - clat| ≤ radiusKm / 111 := by linarith
  rw [abs_le] at habs
  rw [newBoundingBox]
  exact ⟨by linarith [habs.1], by linarith [habs.2]⟩

/-- Witness for C8 (amended) at the origin with radius 0. -/
theorem c8_boundingBox_latitude_conservative_witness :
    (newBoundingBox 0 0 0).minLat ≤ 0 ∧ (0 : ℝ) ≤ (newBoundingBox 0 0 0).maxLat :=
  c8_boundingBox_latitude_conservative 0 0 0 0 0
    (by norm_num) (by norm_num) (by norm_num) (by norm_num)
    (by rw [distanceKmBetween_self])

/-! ### List-level facts about row updates -/

/-- find? commutes with a row-update map that does not change which rows
match the search predicate. -/
theorem find?_map_of_pred_eq {α : Type} (l : List α) (p : α → Bool) (f : α → α)
    (hf : ∀ a, p (f a) = p a) :
    (l.map f).find? p = (l.find? p).map f := by
  have h : p ∘ f = p := funext hf
  rw [List.find?_map, h]

/-- CreateUpdate touches only the updates table. -/
theorem getByID_createUpdate (db : DB) (u : CaseUpdateRec) (id : Nat) :
    caseRepoGetByID (caseRepoCreateUpdate db u) id = caseRepoGetByID db id := rfl

/-- CreateUpdate touches only the updates table. -/
theorem getVolunteer_createUpdate (db : DB) (u : CaseUpdateRec) (caseId volunteerId : Nat) :
    caseRepoGetVolunteer (caseRepoCreateUpdate db u) caseId volunteerId =
      caseRepoGetVolunteer db caseId volunteerId := rfl

/-- Reading back the volunteer row after RemoveVolunteer: the same row,
marked withdrawn. -/
theorem getVolunteer_removeVolunteer (db : DB) (caseId volunteerId : Nat) :
    caseRepoGetVolunteer (caseRepoRemoveVolunteer db caseId volunteerId) caseId volunteerId =
      (caseRepoGetVolunteer db caseId volunteerId).map
        (fun cv => { cv with status := .withdrawn }) := by
  show (db.volunteers.map _).find? _ = _
  rw [find?_map_of_pred_eq _ _ _ (fun cv => by by_cases h : cv.caseId == caseId && cv.volunteerId == volunteerId <;> simp [h])]
  rw [caseRepoGetVolunteer]
  cases h : db.volunteers.find? (fun cv => cv.caseId == caseId && cv.volunteerId == volunteerId) with
  | none => rfl
  | some cv => rw [Option.map_some', Option.map_some', if_pos (List.find?_some h)]

/-- Reading back the case row after RemoveVolunteer: the same row with the
volunteer count decremented, floored at zero. -/
theorem getByID_removeVolunteer (db : DB) (caseId volunteerId : Nat) :
    caseRepoGetByID (caseRepoRemoveVolunteer db caseId volunteerId) caseId =
      (caseRepoGetByID db caseId).map
        (fun c => { c with volunteerCount := max 0 (c.volunteerCount - 1) }) := by
  show (db.cases.map _).find? _ = _
  rw [find?_map_of_pred_eq _ _ _ (fun c => by by_cases h : c.id == caseId <;> simp [h])]
  rw [caseRepoGetByID]
  cases h : db.cases.find? (fun c => c.id == caseId) with
  | none => rfl
  | some c => rw [Option.map_some', Option.map_some', if_pos (List.find?_some h)]

/-- Reading back the volunteer row after ReactivateVolunteer: the same row,
reset to accepted with cleared arrival/completion stamps. -/
theorem getVolunteer_reactivateVolunteer (db : DB) (caseId volunteerId : Nat)
    (lat lng dist : Option ℝ) (now : Nat) :
    caseRepoGetVolunteer
        (caseRepoReactivateVolunteer db caseId volunteerId lat lng dist now)
        caseId volunteerId =
      (caseRepoGetVolunteer db caseId volunteerId).map
        (fun cv => { cv with
          status := .accepted
          acceptedAt := now
          acceptedLatitude := lat
          acceptedLongitude := lng
          distanceKm := dist
          arrivedAt := none
          completedAt := none }) := by
  show (db.volunteers.map _).find? _ = _
  rw [find?_map_of_pred_eq _ _ _
    (fun cv => by by_cases h : cv.caseId == caseId && cv.volunteerId == volunteerId <;> simp [h])]
  rw [caseRepoGetVolunteer]
  cases h : db.volunteers.find?
      (fun cv => cv.caseId == caseId && cv.volunteerId == volunteerId) with
  | none => rfl
  | some cv => rw [Option.map_some', Option.map_some', if_pos (List.find?_some h)]

/-- Reading back the case row after ReactivateVolunteer: count incremented. -/
theorem getByID_reactivateVolunteer (db : DB) (caseId volunteerId : Nat)
    (lat lng dist : Option ℝ) (now : Nat) :
    caseRepoGetByID
        (caseRepoReactivateVolunteer db caseId volunteerId lat lng dist now) caseId =
      (caseRepoGetByID db caseId).map
        (fun c => { c with volunteerCount := c.volunteerCount + 1 }) := by
  show (db.cases.map _).find? _ = _
  rw [find?_map_of_pred_eq _ _ _ (fun c => by by_cases h : c.id == caseId <;> simp [h])]
  rw [caseRepoGetByID]
  cases h : db.cases.find? (fun c => c.id == caseId) with
  | none => rfl
  | some c => rw [Option.map_some', Option.map_some', if_pos (List.find?_some h)]

/-- Reading back the case row after AddVolunteer when the case was pending:
count incremented, status flipped to accepted, accepted_at stamped. -/
theorem getByID_addVolunteer_pending (db : DB) (cv : CaseVolunteer) (now : Nat) (c : Case)
    (hc : caseRepoGetByID db cv.caseId = some c) (hp : c.status = .pending) :
    caseRepoGetByID (caseRepoAddVolunteer db cv now) cv.caseId =
      some { c with
        volunteerCount := c.volunteerCount + 1
        status := .accepted
        acceptedAt := some now } := by
  show ((db.cases.map _).map _).find? _ = _
  rw [find?_map_of_pred_eq _ _ _
    (fun x => by by_cases h : x.id == cv.caseId && x.status == .pending <;> simp [h])]
  rw [find?_map_of_pred_eq _ _ _ (fun x => by by_cases h : x.id == cv.caseId <;> simp [h])]
  rw [show db.cases.find? (fun x => x.id == cv.caseId) = some c from hc]
  rw [Option.map_some', Option.map_some', if_pos (List.find?_some hc)]
  rw [if_pos]
  simp [hp, List.find?_some hc]

/-- Reading back the case row after AddVolunteer when the case was not
pending: only the count changes. -/
theorem getByID_addVolunteer_nonpending (db : DB) (cv : CaseVolunteer) (now : Nat) (c : Case)
    (hc : caseRepoGetByID db cv.caseId = some c) (hp : c.status ≠ .pending) :
    caseRepoGetByID (caseRepoAddVolunteer db cv now) cv.caseId =
      some { c with volunteerCount := c.volunteerCount + 1 } := by
  show ((db.cases.map _).map _).find? _ = _
  rw [find?_map_of_pred_eq _ _ _
    (fun x => by by_cases h : x.id == cv.caseId && x.status == .pending <;> simp [h])]
  rw [find?_map_of_pred_eq _ _ _ (fun x => by by_cases h : x.id == cv.caseId <;> simp [h])]
  rw [show db.cases.find? (fun x => x.id == cv.caseId) = some c from hc]
  rw [Option.map_some', Option.map_some', if_pos (List.find?_some hc)]
  rw [if_neg]
  simp [hp]

/-! ### C2: the Withdraw contract -/

/-- C2 (amended): Withdraw fails with Conflict NOT_ACCEPTED exactly when the
volunteer has no row at all on the case (an existing withdrawn row passes the
guard); otherwise it marks the row withdrawn and decrements the case's
volunteerCount, floored at zero. -/
theorem c2_withdraw_contract (db : DB) (caseId volunteerId updateId : Nat) :
    (caseServiceWithdraw db caseId volunteerId updateId =
        .error (newAppError "NOT_ACCEPTED" "You have not accepted this case" 400) ↔
      caseRepoGetVolunteer db caseId volunteerId = none) ∧
    ((caseRepoGetVolunteer db caseId volunteerId).isSome = true →
      ∃ db', caseServiceWithdraw db caseId volunteerId updateId = .ok db' ∧
        (∀ cv', caseRepoGetVolunteer db' caseId volunteerId = some cv' →
          cv'.status = .withdrawn) ∧
        (∀ c, caseRepoGetByID db caseId = some c →
          (caseRepoGetByID db' caseId).map (fun c' => c'.volunteerCount) =
            some (max 0 (c.volunteerCount - 1)))) := by
  constructor
  · cases hcv : caseRepoGetVolunteer db caseId volunteerId with
    | none => simp [caseServiceWithdraw, hcv]
    | some cv => simp [caseServiceWithdraw, hcv]
  · intro hs
    cases hcv : caseRepoGetVolunteer db caseId volunteerId with
    | none => rw [hcv] at hs; exact absurd hs (by simp)
    | some cv =>
      have hok : caseServiceWithdraw db caseId volunteerId updateId =
          .ok (caseRepoCreateUpdate (caseRepoRemoveVolunteer db caseId volunteerId)
            { id := updateId, caseId := caseId, updateType := .volunteerWithdrawn
              userId := some volunteerId
              content := some ((match userRepoGetByID db volunteerId with
                | some u => u.displayName
                | none => "A volunteer") ++ " has left this case")
              oldStatus := none, newStatus := none, mediaURLs := [] }) := by
        simp [caseServiceWithdraw, hcv]
      refine ⟨_, hok, ?_, ?_⟩
      · intro cv' hcv'
        have : caseRepoGetVolunteer
            (caseRepoRemoveVolunteer db caseId volunteerId) caseId volunteerId = some cv' := hcv'
        rw [getVolunteer_removeVolunteer, hcv, Option.map_some'] at this
        cases this
        rfl
      · intro c hc
        have h1 : caseRepoGetByID
            (caseRepoRemoveVolunteer db caseId volunteerId) caseId =
              some { c with volunteerCount := max 0 (c.volunteerCount - 1) } := by
          rw [getByID_removeVolunteer, hc, Option.map_some']
        rw [getByID_createUpdate, h1, Option.map_some']

/-- Witness for C2 on the state where volunteer 2's row is already withdrawn:
the guard still passes and the row stays withdrawn while the count drops. -/
theorem c2_withdraw_contract_witness :
    ∃ db', caseServiceWithdraw demoDb4 100 2 106 = .ok db' ∧
      (∀ cv', caseRepoGetVolunteer db' 100 2 = some cv' → cv'.status = .withdrawn) ∧
      (∀ c, caseRepoGetByID demoDb4 100 = some c →
        (caseRepoGetByID db' 100).map (fun c' => c'.volunteerCount) =
          some (max 0 (c.volunteerCount - 1))) :=
  (c2_withdraw_contract demoDb4 100 2 106).2 rfl

/-- C2 (counterexample to the claim as stated): in the demo state after the
first withdrawal, volunteer 2 has no active (non-withdrawn) row on case 100,
yet Withdraw does not fail with NOT_ACCEPTED — it succeeds. -/
theorem c2_withdraw_not_accepted_counterexample :
    (caseRepoGetVolunteer demoDb4 100 2).map (fun cv => cv.status) =
        some .withdrawn ∧
      (caseServiceWithdraw demoDb4 100 2 106).isOk = true := by
  exact ⟨rfl, rfl⟩

/-! ### C9: the Create contract -/

/-- C9 (counterexample to the claim as stated): Create performs no validation
that a matching detail block is present. An animal-case request without
animal fields is persisted successfully with no detail record of any type. -/
theorem c9_create_no_validation_counterexample :
    (caseServiceCreate demoDb0 demoAnimalReqNoDetails none 100 101 102).1.caseType =
        CaseType.animal ∧
      (caseServiceCreate demoDb0 demoAnimalReqNoDetails none 100 101 102).1.animalDetails =
        none ∧
      ((caseServiceCreate demoDb0 demoAnimalReqNoDetails none 100 101 102).2.cases.map
          (fun c => (c.id, c.animalDetails.isSome, c.floodDetails.isSome,
            c.accidentDetails.isSome))) =
        [(100, false, false, false)] :=
  ⟨rfl, rfl, rfl⟩

/-- C9 (amended): Create sets the new case's status to pending and persists
the case together with its detail sub-record in one atomic step; it does not
validate the detail block but attaches it conditionally: the animal block
exactly when both animalType and animalCondition are given, the flood block
always for flood cases, the accident block exactly when accidentType is
given, and never a block of a different type than the case's. -/
theorem c9_create_contract (db : DB) (req : CreateCaseRequest) (userId : Option Nat)
    (caseId detailId updateId : Nat) :
    (caseServiceCreate db req userId caseId detailId updateId).1.status = .pending ∧
      (caseServiceCreate db req userId caseId detailId updateId).1 ∈
        (caseServiceCreate db req userId caseId detailId updateId).2.cases ∧
      (caseServiceCreate db req userId caseId detailId updateId).1.animalDetails.isSome =
        (req.caseType == .animal && req.animalType.isSome && req.animalCondition.isSome) ∧
      (caseServiceCreate db req userId caseId detailId updateId).1.floodDetails.isSome =
        (req.caseType == .flood) ∧
      (caseServiceCreate db req userId caseId detailId updateId).1.accidentDetails.isSome =
        (req.caseType == .accident && req.accidentType.isSome) := by
  have hmem : ∀ dbx : DB, ∀ uid : Option Nat,
      (match uid with
        | some u => userRepoIncrementCasesReported dbx u
        | none => dbx).cases = dbx.cases := by
    intro dbx uid
    cases uid <;> rfl
  cases hct : req.caseType with
  | animal =>
    cases hat : req.animalType with
    | none =>
      simp [caseServiceCreate, hct, hat, caseRepoCreate, hmem]
    | some aty =>
      cases hac : req.animalCondition with
      | none => simp [caseServiceCreate, hct, hat, hac, caseRepoCreate, hmem]
      | some cond => simp [caseServiceCreate, hct, hat, hac, caseRepoCreate, hmem]
  | flood => simp [caseServiceCreate, hct, caseRepoCreate, hmem]
  | accident =>
    cases haty : req.accidentType with
    | none => simp [caseServiceCreate, hct, haty, caseRepoCreate, hmem]
    | some aty => simp [caseServiceCreate, hct, haty, caseRepoCreate, hmem]

/-! ### C4: re-acceptance reactivates the existing row -/

/-- C4: on an active, under-capacity case, Accept by a volunteer whose
existing row is withdrawn reactivates that same row (same row id, no new row,
status accepted, arrival and completion stamps cleared) and increments the
case's volunteerCount; when the existing row is in any non-withdrawn status,
Accept fails with Conflict ALREADY_ACCEPTED. -/
theorem c4_reaccept_reactivates (db : DB) (caseId volunteerId : Nat)
    (req : AcceptCaseRequest) (cvId updateId now : Nat) (c : Case) (u : User)
    (cv : CaseVolunteer)
    (hc : caseRepoGetByID db caseId = some c) (hactive : c.status.isActive = true)
    (hcap : c.volunteerCount < c.maxVolunteers)
    (hu : userRepoGetByID db volunteerId = some u)
    (hcv : caseRepoGetVolunteer db caseId volunteerId = some cv) :
    (cv.status = .withdrawn →
      ∃ db', caseServiceAccept db caseId volunteerId req cvId updateId now = .ok db' ∧
        db'.volunteers.length = db.volunteers.length ∧
        (∃ cv', caseRepoGetVolunteer db' caseId volunteerId = some cv' ∧
          cv'.id = cv.id ∧ cv'.status = .accepted ∧
          cv'.arrivedAt = none ∧ cv'.completedAt = none) ∧
        (caseRepoGetByID db' caseId).map (fun c' => c'.volunteerCount) =
          some (c.volunteerCount + 1)) ∧
    (cv.status ≠ .withdrawn →
      caseServiceAccept db caseId volunteerId req cvId updateId now =
        .error (newAppError "ALREADY_ACCEPTED" "You have already accepted this case" 400)) := by
  have hcap' : ¬ c.volunteerCount ≥ c.maxVolunteers := not_le.mpr hcap
  constructor
  · intro hw
    obtain ⟨lat, lng, dist, j, hok⟩ :
        ∃ (lat lng dist : Option ℝ) (j : CaseUpdateRec),
          caseServiceAccept db caseId volunteerId req cvId updateId now =
            .ok (caseRepoCreateUpdate
              (caseRepoReactivateVolunteer db caseId volunteerId lat lng dist now) j) :=
      ⟨_, _, _, _, by simp [caseServiceAccept, hc, hactive, hcap', hu, hcv, hw]; rfl⟩
    refine ⟨_, hok, ?_, ?_, ?_⟩
    · show ((db.volunteers.map _)).length = db.volunteers.length
      rw [List.length_map]
    · rw [getVolunteer_createUpdate, getVolunteer_reactivateVolunteer, hcv, Option.map_some']
      exact ⟨_, rfl, rfl, rfl, rfl, rfl⟩
    · rw [getByID_createUpdate, getByID_reactivateVolunteer, hc, Option.map_some',
        Option.map_some']
  · intro hw
    simp [caseServiceAccept, hc, hactive, hcap', hu, hcv, hw]

/-- Witness for C4 on the state after the first withdrawal: volunteer 2's
withdrawn row on the active case 100 is reactivated. -/
theorem c4_reaccept_reactivates_witness :
    ((demoVolunteer2Withdrawn.status = VolunteerStatus.withdrawn →
      ∃ db', caseServiceAccept demoDb4 100 2 ⟨none, none⟩ 202 107 12 = .ok db' ∧
        db'.volunteers.length = demoDb4.volunteers.length ∧
        (∃ cv', caseRepoGetVolunteer db' 100 2 = some cv' ∧
          cv'.id = demoVolunteer2Withdrawn.id ∧ cv'.status = .accepted ∧
          cv'.arrivedAt = none ∧ cv'.completedAt = none) ∧
        (caseRepoGetByID db' 100).map (fun c' => c'.volunteerCount) =
          some (demoCaseAfterFirstWithdraw.volunteerCount + 1)) ∧
    (demoVolunteer2Withdrawn.status ≠ VolunteerStatus.withdrawn →
      caseServiceAccept demoDb4 100 2 ⟨none, none⟩ 202 107 12 =
        .error (newAppError "ALREADY_ACCEPTED" "You have already accepted this case" 400))) :=
  c4_reaccept_reactivates demoDb4 100 2 ⟨none, none⟩ 202 107 12
    demoCaseAfterFirstWithdraw demoUserV1 demoVolunteer2Withdrawn rfl rfl (by decide) rfl rfl

/-! ### C5: Accept drives a pending case to accepted and leaves other
active statuses unchanged -/

/-- C5: a first-time Accept (no prior row) on a pending under-capacity case
sets the case status to accepted and stamps acceptedAt with the operation
time; and any successful Accept on a case whose status is already accepted or
in_progress leaves the case status unchanged. -/
theorem c5_accept_pending_transition (db : DB) (caseId volunteerId : Nat)
    (req : AcceptCaseRequest) (cvId updateId now : Nat) :
    (∀ c u, caseRepoGetByID db caseId = some c → c.status = .pending →
      c.volunteerCount < c.maxVolunteers →
      userRepoGetByID db volunteerId = some u →
      caseRepoGetVolunteer db caseId volunteerId = none →
      ∃ db', caseServiceAccept db caseId volunteerId req cvId updateId now = .ok db' ∧
        (caseRepoGetByID db' caseId).map (fun c' => c'.status) = some .accepted ∧
        (caseRepoGetByID db' caseId).map (fun c' => c'.acceptedAt) = some (some now)) ∧
    (∀ c db', caseRepoGetByID db caseId = some c →
      (c.status = .accepted ∨ c.status = .inProgress) →
      caseServiceAccept db caseId volunteerId req cvId updateId now = .ok db' →
      (caseRepoGetByID db' caseId).map (fun c' => c'.status) =
        (caseRepoGetByID db caseId).map (fun c' => c'.status)) := by
  constructor
  · intro c u hc hp hcap hu hnone
    have hactive : c.status.isActive = true := by rw [hp]; rfl
    have hcap' : ¬ c.volunteerCount ≥ c.maxVolunteers := not_le.mpr hcap
    obtain ⟨cvr, j, hcvr, hok⟩ :
        ∃ (cvr : CaseVolunteer) (j : CaseUpdateRec), cvr.caseId = caseId ∧
          caseServiceAccept db caseId volunteerId req cvId updateId now =
            .ok (caseRepoCreateUpdate (caseRepoAddVolunteer db cvr now) j) :=
      ⟨_, _, rfl, by simp [caseServiceAccept, hc, hactive, hcap', hu, hnone]; rfl⟩
    have hfind : caseRepoGetByID (caseRepoAddVolunteer db cvr now) caseId =
        some { c with
          volunteerCount := c.volunteerCount + 1
          status := .accepted
          acceptedAt := some now } := by
      rw [← hcvr] at hc ⊢
      exact getByID_addVolunteer_pending db cvr now c hc hp
    refine ⟨_, hok, ?_, ?_⟩
    · rw [getByID_createUpdate, hfind, Option.map_some']
    · rw [getByID_createUpdate, hfind, Option.map_some']
  · intro c db' hc hstat hok
    have hactive : c.status.isActive = true := by
      rcases hstat with h | h <;> rw [h] <;> rfl
    have hnp : c.status ≠ .pending := by
      rcases hstat with h | h <;> rw [h] <;> intro hcontra <;> cases hcontra
    by_cases hcap : c.volunteerCount ≥ c.maxVolunteers
    · rw [show caseServiceAccept db caseId volunteerId req cvId updateId now =
          .error (newAppError "MAX_VOLUNTEERS" "Maximum volunteers reached for this case" 400)
          from by simp [caseServiceAccept, hc, hactive, hcap]] at hok
      cases hok
    · cases hu : userRepoGetByID db volunteerId with
      | none =>
        rw [show caseServiceAccept db caseId volunteerId req cvId updateId now =
            .error errUserNotFound from by simp [caseServiceAccept, hc, hactive, hcap, hu]] at hok
        cases hok
      | some u =>
        cases hcv : caseRepoGetVolunteer db caseId volunteerId with
        | some existing =>
          by_cases hw : existing.status = .withdrawn
          · obtain ⟨lat, lng, dist, j, hok'⟩ :
                ∃ (lat lng dist : Option ℝ) (j : CaseUpdateRec),
                  caseServiceAccept db caseId volunteerId req cvId updateId now =
                    .ok (caseRepoCreateUpdate
                      (caseRepoReactivateVolunteer db caseId volunteerId lat lng dist now) j) :=
              ⟨_, _, _, _, by simp [caseServiceAccept, hc, hactive, hcap, hu, hcv, hw]; rfl⟩
            rw [hok'] at hok
            cases hok
            rw [getByID_createUpdate, getByID_reactivateVolunteer, hc, Option.map_some',
              Option.map_some', Option.map_some']
          · rw [show caseServiceAccept db caseId volunteerId req cvId updateId now =
                .error (newAppError "ALREADY_ACCEPTED" "You have already accepted this case" 400)
                from by simp [caseServiceAccept, hc, hactive, hcap, hu, hcv, hw]] at hok
            cases hok
        | none =>
          obtain ⟨cvr, j, hcvr, hok'⟩ :
              ∃ (cvr : CaseVolunteer) (j : CaseUpdateRec), cvr.caseId = caseId ∧
                caseServiceAccept db caseId volunteerId req cvId updateId now =
                  .ok (caseRepoCreateUpdate (caseRepoAddVolunteer db cvr now) j) :=
            ⟨_, _, rfl, by simp [caseServiceAccept, hc, hactive, hcap, hu, hcv]; rfl⟩
          rw [hok'] at hok
          cases hok
          have hfind : caseRepoGetByID (caseRepoAddVolunteer db cvr now) caseId =
              some { c with volunteerCount := c.volunteerCount + 1 } := by
            rw [← hcvr] at hc ⊢
            exact getByID_addVolunteer_nonpending db cvr now c hc hnp
          rw [getByID_createUpdate, hfind, Option.map_some', hc, Option.map_some']

/-- Witness for C5: volunteer 2's first Accept on the pending demo case. -/
theorem c5_accept_pending_transition_witness :
    ∃ db', caseServiceAccept demoDb1 100 2 ⟨none, none⟩ 200 103 10 = .ok db' ∧
      (caseRepoGetByID db' 100).map (fun c' => c'.status) = some .accepted ∧
      (caseRepoGetByID db' 100).map (fun c' => c'.acceptedAt) = some (some 10) :=
  (c5_accept_pending_transition demoDb1 100 2 ⟨none, none⟩ 200 103 10).1
    demoCasePending demoUserV1 rfl rfl (by decide) rfl rfl

/-! ### C3: the completion aggregation -/

/-- The credit fold of checkCaseCompletion touches only the users table. -/
theorem foldl_credit_cases (vols : List CaseVolunteer) (db : DB) :
    (vols.foldl
      (fun acc v =>
        if v.status == .completed then userRepoIncrementCasesResolved acc v.volunteerId
        else acc)
      db).cases = db.cases := by
  induction vols generalizing db with
  | nil => rfl
  | cons v t ih =>
    rw [List.foldl_cons, ih]
    by_cases h : v.status == VolunteerStatus.completed
    · rw [if_pos h]; rfl
    · rw [if_neg h]

/-- The credit fold of checkCaseCompletion touches only the users table. -/
theorem foldl_credit_volunteers (vols : List CaseVolunteer) (db : DB) :
    (vols.foldl
      (fun acc v =>
        if v.status == .completed then userRepoIncrementCasesResolved acc v.volunteerId
        else acc)
      db).volunteers = db.volunteers := by
  induction vols generalizing db with
  | nil => rfl
  | cons v t ih =>
    rw [List.foldl_cons, ih]
    by_cases h : v.status == VolunteerStatus.completed
    · rw [if_pos h]; rfl
    · rw [if_neg h]

/-- The credit fold of checkCaseCompletion adds, to each user's resolved
counter, the number of completed rows of that user among the folded rows. -/
theorem foldl_credit_users (vols : List CaseVolunteer) (db : DB) :
    (vols.foldl
      (fun acc v =>
        if v.status == .completed then userRepoIncrementCasesResolved acc v.volunteerId
        else acc)
      db).users =
      db.users.map (fun u =>
        { u with totalCasesResolved := u.totalCasesResolved +
            ((vols.filter
              (fun v => v.status == .completed && v.volunteerId == u.id)).length : Int) }) := by
  induction vols generalizing db with
  | nil =>
    rw [List.foldl_nil]
    rw [List.map_congr_left (g := id) (fun u _ => by cases u; simp)]
    rw [List.map_id]
  | cons v t ih =>
    rw [List.foldl_cons]
    by_cases h : v.status == VolunteerStatus.completed
    · rw [if_pos h, ih]
      show (db.users.map _).map _ = _
      rw [List.map_map]
      refine List.map_congr_left (fun u _ => ?_)
      cases u with
      | mk uid udn uav uact ulat ulng urep ures =>
        by_cases hid : uid = v.volunteerId
        · have h1 : (uid == v.volunteerId) = true := beq_iff_eq.mpr hid
          have h2 : (v.volunteerId == uid) = true := beq_iff_eq.mpr hid.symm
          simp [List.filter_cons, h, h1, h2, hid]
          ring
        · have h1 : (uid == v.volunteerId) = false := beq_eq_false_iff_ne.mpr hid
          have h2 : (v.volunteerId == uid) = false := beq_eq_false_iff_ne.mpr (Ne.symm hid)
          simp [List.filter_cons, h, h1, h2, hid]
    · rw [if_neg h, ih]
      refine List.map_congr_left (fun u _ => ?_)
      have hb : (v.status == VolunteerStatus.completed) = false := by
        simpa using h
      simp [List.filter_cons, hb]

/-- Reading back a case after UpdateStatus: status replaced, accepted_at and
resolved_at stamped according to the new status. -/
theorem getByID_updateStatus (db : DB) (id : Nat) (status : CaseStatus) (now : Nat) :
    caseRepoGetByID (caseRepoUpdateStatus db id status now) id =
      (caseRepoGetByID db id).map (fun c =>
        { c with
          status := status
          acceptedAt := if status == .accepted then some now else c.acceptedAt
          resolvedAt := if status == .resolved then some now else c.resolvedAt }) := by
  show (db.cases.map _).find? _ = _
  rw [find?_map_of_pred_eq _ _ _ (fun c => by by_cases h : c.id == id <;> simp [h])]
  rw [caseRepoGetByID]
  cases h : db.cases.find? (fun c => c.id == id) with
  | none => rfl
  | some c => rw [Option.map_some', Option.map_some', if_pos (List.find?_some h)]

/-- Two states with the same cases table agree on GetByID. -/
theorem getByID_congr_cases (dbx dby : DB) (id : Nat) (h : dbx.cases = dby.cases) :
    caseRepoGetByID dbx id = caseRepoGetByID dby id := by
  rw [caseRepoGetByID, caseRepoGetByID, h]

/-- checkCaseCompletion never changes the volunteers table. -/
theorem checkCaseCompletion_volunteers (db : DB) (caseId now : Nat) :
    (checkCaseCompletion db caseId now).volunteers = db.volunteers := by
  rw [checkCaseCompletion]
  by_cases hcond :
      ((caseRepoGetVolunteersByCaseID db caseId).all
          (fun v => v.status == .completed || v.status == .withdrawn) &&
        !(caseRepoGetVolunteersByCaseID db caseId).isEmpty) = true
  · rw [if_pos hcond, foldl_credit_volunteers]
    rfl
  · rw [if_neg hcond]

/-- C3: updating a volunteer to completed triggers the completion
aggregation on the post-update volunteer set of the case; when that set is
non-empty and every row is completed or withdrawn, the case becomes resolved
and every user is credited once per completed row of theirs on the case;
otherwise the case status and the user counters are left unchanged. -/
theorem c3_completion_aggregation (db : DB) (caseId volunteerId : Nat)
    (note : Option String) (updateId now : Nat)
    (hcv : (caseRepoGetVolunteer db caseId volunteerId).isSome = true) :
    ∃ db', caseServiceUpdateVolunteerStatus db caseId volunteerId
        ⟨.completed, note⟩ updateId now = .ok db' ∧
      ((caseRepoGetVolunteersByCaseID db' caseId ≠ [] ∧
          ∀ v ∈ caseRepoGetVolunteersByCaseID db' caseId,
            v.status = .completed ∨ v.status = .withdrawn) →
        (caseRepoGetByID db' caseId).map (fun c => c.status) =
            (caseRepoGetByID db caseId).map (fun _ => CaseStatus.resolved) ∧
          db'.users = db.users.map (fun u =>
            { u with totalCasesResolved := u.totalCasesResolved +
                (((caseRepoGetVolunteersByCaseID db' caseId).filter
                  (fun v => v.status == .completed && v.volunteerId == u.id)).length : Int) })) ∧
      (¬ (caseRepoGetVolunteersByCaseID db' caseId ≠ [] ∧
          ∀ v ∈ caseRepoGetVolunteersByCaseID db' caseId,
            v.status = .completed ∨ v.status = .withdrawn) →
        (caseRepoGetByID db' caseId).map (fun c => c.status) =
            (caseRepoGetByID db caseId).map (fun c => c.status) ∧
          db'.users = db.users) := by
  cases hcv0 : caseRepoGetVolunteer db caseId volunteerId with
  | none => rw [hcv0] at hcv; exact absurd hcv (by simp)
  | some cv0 =>
    obtain ⟨urec, hok⟩ : ∃ urec : CaseUpdateRec,
        caseServiceUpdateVolunteerStatus db caseId volunteerId
            ⟨.completed, note⟩ updateId now =
          .ok (checkCaseCompletion
            (caseRepoCreateUpdate
              (caseRepoUpdateVolunteerStatus db caseId volunteerId .completed now) urec)
            caseId now) :=
      ⟨_, by simp [caseServiceUpdateVolunteerStatus, hcv0]; rfl⟩
    refine ⟨_, hok, ?_, ?_⟩
    all_goals
      set dbMid := caseRepoCreateUpdate
        (caseRepoUpdateVolunteerStatus db caseId volunteerId .completed now) urec with hdbMid
    all_goals
      have hv : caseRepoGetVolunteersByCaseID (checkCaseCompletion dbMid caseId now) caseId =
          caseRepoGetVolunteersByCaseID dbMid caseId := by
        rw [caseRepoGetVolunteersByCaseID, caseRepoGetVolunteersByCaseID,
          checkCaseCompletion_volunteers]
    · intro hdone
      rw [hv] at hdone
      obtain ⟨hne, hall⟩ := hdone
      have hcond : ((caseRepoGetVolunteersByCaseID dbMid caseId).all
            (fun v => v.status == .completed || v.status == .withdrawn) &&
          !(caseRepoGetVolunteersByCaseID dbMid caseId).isEmpty) = true := by
        rw [Bool.and_eq_true]
        constructor
        · rw [List.all_eq_true]
          intro v hvmem
          rcases hall v hvmem with h | h <;> simp [h]
        · simp [List.isEmpty_iff, hne]
      have hresolve : checkCaseCompletion dbMid caseId now =
          (caseRepoGetVolunteersByCaseID dbMid caseId).foldl
            (fun acc v =>
              if v.status == .completed then userRepoIncrementCasesResolved acc v.volunteerId
              else acc)
            (caseRepoUpdateStatus dbMid caseId .resolved now) := by
        rw [checkCaseCompletion, if_pos hcond]
      constructor
      · have hcases : (checkCaseCompletion dbMid caseId now).cases =
            (caseRepoUpdateStatus dbMid caseId .resolved now).cases := by
          rw [hresolve, foldl_credit_cases]
        rw [getByID_congr_cases _ _ _ hcases, getByID_updateStatus]
        rw [show caseRepoGetByID dbMid caseId = caseRepoGetByID db caseId from rfl]
        cases caseRepoGetByID db caseId with
        | none => rfl
        | some c => rfl
      · rw [hv, hresolve, foldl_credit_users]
        rfl
    · intro hnot
      rw [hv] at hnot
      have hcond : ((caseRepoGetVolunteersByCaseID dbMid caseId).all
            (fun v => v.status == .completed || v.status == .withdrawn) &&
          !(caseRepoGetVolunteersByCaseID dbMid caseId).isEmpty) = false := by
        rw [not_and_or] at hnot
        rcases hnot with h | h
        · push_neg at h
          simp [h]
        · push_neg at h
          obtain ⟨v, hvmem, hvnot⟩ := h
          have : (caseRepoGetVolunteersByCaseID dbMid caseId).all
              (fun v => v.status == .completed || v.status == .withdrawn) = false := by
            rw [List.all_eq_false]
            refine ⟨v, hvmem, ?_⟩
            simp only [Bool.or_eq_true, beq_iff_eq]
            tauto
          simp [this]
      have helse : checkCaseCompletion dbMid caseId now = dbMid := by
        rw [checkCaseCompletion, if_neg (by simp [hcond])]
      rw [helse]
      exact ⟨rfl, rfl⟩

/-- Witness for C3: volunteer 2, the only volunteer of the demo case,
completes; the aggregation resolves the case and credits the volunteer. -/
theorem c3_completion_aggregation_witness :
    ∃ db', caseServiceUpdateVolunteerStatus demoDb2 100 2
        ⟨.completed, none⟩ 107 12 = .ok db' ∧
      ((caseRepoGetVolunteersByCaseID db' 100 ≠ [] ∧
          ∀ v ∈ caseRepoGetVolunteersByCaseID db' 100,
            v.status = .completed ∨ v.status = .withdrawn) →
        (caseRepoGetByID db' 100).map (fun c => c.status) =
            (caseRepoGetByID demoDb2 100).map (fun _ => CaseStatus.resolved) ∧
          db'.users = demoDb2.users.map (fun u =>
            { u with totalCasesResolved := u.totalCasesResolved +
                (((caseRepoGetVolunteersByCaseID db' 100).filter
                  (fun v => v.status == .completed && v.volunteerId == u.id)).length : Int) })) ∧
      (¬ (caseRepoGetVolunteersByCaseID db' 100 ≠ [] ∧
          ∀ v ∈ caseRepoGetVolunteersByCaseID db' 100,
            v.status = .completed ∨ v.status = .withdrawn) →
        (caseRepoGetByID db' 100).map (fun c => c.status) =
            (caseRepoGetByID demoDb2 100).map (fun c => c.status) ∧
          db'.users = demoDb2.users) :=
  c3_completion_aggregation demoDb2 100 2 none 107 12 rfl

/-! ### C6: every match respects the volunteer's own radius and type
preference -/

/-- A member of an optionally truncated list is a member of the list. -/
theorem mem_of_mem_take_ite {α : Type} (v : α) (l : List α) (c : Prop) [Decidable c]
    (n : Nat) (hv : v ∈ if c then l.take n else l) : v ∈ l := by
  split at hv
  · exact List.mem_of_mem_take hv
  · exact hv

/-- C6: every volunteer returned by FindAvailableVolunteers comes from an
input row, is compared at their effective location, lies within their own
notificationRadiusKm (default 10 km) of the query point, and their caseTypes
preference, when present, contains the (non-empty) case type. -/
theorem c6_matcher_radius_and_type (rows : List UserWithPrefs) (lat lng : ℝ)
    (radiusKm : Int) (caseType : String) (lim : Int) (v : VolunteerWithDistance)
    (hv : v ∈ findAvailableVolunteers rows lat lng radiusKm caseType lim) :
    ∃ uwp ∈ rows, ∃ pt : ℝ × ℝ, v.user = uwp.user ∧
      effectiveLocation uwp = some pt ∧
      v.distanceKm = distanceKmBetween lat lng pt.1 pt.2 ∧
      v.distanceKm ≤
        (((match uwp.notificationRadiusKm with
           | none => 10
           | some r => r) : Int) : ℝ) ∧
      (caseType ≠ "" → ∀ cts, uwp.caseTypes = some cts → caseType ∈ cts) := by
  simp only [findAvailableVolunteers] at hv
  have hsorted := mem_of_mem_take_ite v _ _ _ hv
  obtain ⟨uwp, hmem, hf⟩ :=
    List.mem_filterMap.mp ((List.mergeSort_perm _ _).mem_iff.mp hsorted)
  rw [List.mem_filter] at hmem
  refine ⟨uwp, hmem.1, ?_⟩
  cases heff : effectiveLocation uwp with
  | none => rw [heff] at hf; cases hf
  | some pt =>
    rw [heff] at hf
    simp only at hf
    by_cases hd : distanceKmBetween lat lng pt.1 pt.2 >
        (((match uwp.notificationRadiusKm with
           | none => 10
           | some r => r) : Int) : ℝ)
    · rw [if_pos hd] at hf; cases hf
    · rw [if_neg hd] at hf
      refine ⟨pt, ?_⟩
      cases hct : uwp.caseTypes with
      | some cts =>
        rw [hct] at hf
        dsimp only at hf
        by_cases hex : caseType ≠ "" ∧ caseType ∉ cts
        · rw [if_pos hex] at hf; cases hf
        · rw [if_neg hex] at hf
          cases hf
          refine ⟨rfl, rfl, rfl, not_lt.mp hd, ?_⟩
          intro hne cts' hcts'
          cases hcts'
          by_contra hnotin
          exact hex ⟨hne, hnotin⟩
      | none =>
        rw [hct] at hf
        dsimp only at hf
        cases hf
        refine ⟨rfl, rfl, rfl, not_lt.mp hd, ?_⟩
        intro _ cts' hcts'
        cases hcts'

/-- Witness for C6: the matcher run on one volunteer standing exactly at the
query point returns that volunteer, and the theorem ties the result back to
the row. -/
theorem c6_matcher_radius_and_type_witness :
    ∃ uwp ∈ [demoMatchRow], ∃ pt : ℝ × ℝ,
      (VolunteerWithDistance.mk demoMatchRow.user 0).user = uwp.user ∧
      effectiveLocation uwp = some pt ∧
      (VolunteerWithDistance.mk demoMatchRow.user 0).distanceKm =
        distanceKmBetween 0 0 pt.1 pt.2 ∧
      (VolunteerWithDistance.mk demoMatchRow.user 0).distanceKm ≤
        (((match uwp.notificationRadiusKm with
           | none => 10
           | some r => r) : Int) : ℝ) ∧
      ("flood" ≠ "" → ∀ cts, uwp.caseTypes = some cts → "flood" ∈ cts) := by
  have hq : matchesCandidateQuery (newBoundingBox 0 0 (10 : ℝ)) demoMatchRow = true := by
    simp [matchesCandidateQuery, demoMatchRow, newBoundingBox]
    norm_num
  have heff : effectiveLocation demoMatchRow = some (0, 0) := rfl
  have hrad : demoMatchRow.notificationRadiusKm = none := rfl
  have hct : demoMatchRow.caseTypes = none := rfl
  have hrun : findAvailableVolunteers [demoMatchRow] 0 0 10 "flood" 100 =
      [VolunteerWithDistance.mk demoMatchRow.user 0] := by
    simp [findAvailableVolunteers, hq, heff, hrad, hct, distanceKmBetween_self]
  exact c6_matcher_radius_and_type [demoMatchRow] 0 0 10 "flood" 100 _
    (by rw [hrun]; exact List.mem_cons_self _ _)

/-! ### C7: the effective comparison point and who gets skipped -/

/-- C7 (counterexample to the claim as stated): a volunteer with a usable
fixed center (useCurrentLocation false, center set at the query point) but no
live location is excluded by the candidate query, so the matcher returns
nothing although the volunteer does not lack a usable location. -/
theorem c7_center_only_volunteer_excluded :
    effectiveLocation demoCenterOnlyRow = some (0, 0) ∧
      findAvailableVolunteers [demoCenterOnlyRow] 0 0 10 "flood" 100 = [] := by
  refine ⟨rfl, ?_⟩
  have hq : matchesCandidateQuery (newBoundingBox 0 0 (10 : ℝ)) demoCenterOnlyRow
      = false := by
    simp [matchesCandidateQuery, demoCenterOnlyRow]
  simp [findAvailableVolunteers, hq]

/-- C7 (amended): the candidate query skips every volunteer without a live
location, even one with a usable center; among candidates, the effective
comparison point is the fixed center when useCurrentLocation is false and a
center is fully set, else the live location; the in-loop skip for lack of
location happens exactly when the volunteer has neither a usable center nor a
live location. -/
theorem c7_effective_location_contract (uwp : UserWithPrefs) :
    (∀ bbox : BoundingBox, uwp.user.latitude = none →
      matchesCandidateQuery bbox uwp = false) ∧
    (∀ clat clng, uwp.useCurrentLocation = some false →
      uwp.centerLatitude = some clat → uwp.centerLongitude = some clng →
      effectiveLocation uwp = some (clat, clng)) ∧
    (∀ ulat ulng, uwp.user.latitude = some ulat → uwp.user.longitude = some ulng →
      ¬ (uwp.useCurrentLocation = some false ∧ uwp.centerLatitude.isSome = true ∧
          uwp.centerLongitude.isSome = true) →
      effectiveLocation uwp = some (ulat, ulng)) ∧
    (effectiveLocation uwp = none ↔
      ¬ (uwp.useCurrentLocation = some false ∧ uwp.centerLatitude.isSome = true ∧
          uwp.centerLongitude.isSome = true) ∧
        (uwp.user.latitude = none ∨ uwp.user.longitude = none)) := by
  refine ⟨?_, ?_, ?_, ?_⟩
  · intro bbox hlat
    simp [matchesCandidateQuery, hlat]
  · intro clat clng huc hca hcb
    simp [effectiveLocation, huc, hca, hcb]
  · intro ulat ulng hlat hlng hn
    cases huc : uwp.useCurrentLocation with
    | none => simp [effectiveLocation, huc, hlat, hlng]
    | some b =>
      cases b with
      | true => simp [effectiveLocation, huc, hlat, hlng]
      | false =>
        cases hca : uwp.centerLatitude with
        | none => simp [effectiveLocation, huc, hca, hlat, hlng]
        | some clat =>
          cases hcb : uwp.centerLongitude with
          | none => simp [effectiveLocation, huc, hca, hcb, hlat, hlng]
          | some clng => exact absurd ⟨huc, by simp [hca], by simp [hcb]⟩ hn
  · cases huc : uwp.useCurrentLocation with
    | none =>
      cases hlat : uwp.user.latitude with
      | none => simp [effectiveLocation, huc, hlat]
      | some la =>
        cases hlng : uwp.user.longitude with
        | none => simp [effectiveLocation, huc, hlat, hlng]
        | some ln => simp [effectiveLocation, huc, hlat, hlng]
    | some b =>
      cases b with
      | true =>
        cases hlat : uwp.user.latitude with
        | none => simp [effectiveLocation, huc, hlat]
        | some la =>
          cases hlng : uwp.user.longitude with
          | none => simp [effectiveLocation, huc, hlat, hlng]
          | some ln => simp [effectiveLocation, huc, hlat, hlng]
      | false =>
        cases hca : uwp.centerLatitude with
        | none =>
          cases hlat : uwp.user.latitude with
          | none => simp [effectiveLocation, huc, hca, hlat]
          | some la =>
            cases hlng : uwp.user.longitude with
            | none => simp [effectiveLocation, huc, hca, hlat, hlng]
            | some ln => simp [effectiveLocation, huc, hca, hlat, hlng]
        | some clat =>
          cases hcb : uwp.centerLongitude with
          | none =>
            cases hlat : uwp.user.latitude with
            | none => simp [effectiveLocation, huc, hca, hcb, hlat]
            | some la =>
              cases hlng : uwp.user.longitude with
              | none => simp [effectiveLocation, huc, hca, hcb, hlat, hlng]
              | some ln => simp [effectiveLocation, huc, hca, hcb, hlat, hlng]
          | some clng => simp [effectiveLocation, huc, hca, hcb]

/-- Witness for C7 (amended) on the center-only row: excluded by the
candidate query despite a usable effective location. -/
theorem c7_effective_location_contract_witness :
    matchesCandidateQuery (newBoundingBox 0 0 10) demoCenterOnlyRow = false ∧
      effectiveLocation demoCenterOnlyRow = some (0, 0) :=
  ⟨(c7_effective_location_contract demoCenterOnlyRow).1 (newBoundingBox 0 0 10) rfl,
    (c7_effective_location_contract demoCenterOnlyRow).2.1 0 0 rfl rfl rfl⟩

/-! ### C1: the volunteerCount invariant over reachable states -/

/-- C1: the invariant fails on a reachable state. The history create, accept
by volunteer 2, accept by volunteer 3, withdraw by volunteer 2, withdraw by
volunteer 2 again is accepted by the coordinator (Withdraw only checks that a
volunteer row exists, not that it is active), and the second withdraw
decrements volunteerCount to 0 while volunteer 3's row is still accepted. -/
theorem c1_volunteerCount_invariant_violated :
    Reachable demoDb5 ∧ ¬ volunteerCountInvariant demoDb5 := by
  constructor
  · exact Reachable.withdraw demoDb4 demoDb5 100 2 106
      (Reachable.withdraw demoDb3 demoDb4 100 2 105
        (Reachable.accept demoDb2 demoDb3 100 3 ⟨none, none⟩ 201 104 11
          (Reachable.accept demoDb1 demoDb2 100 2 ⟨none, none⟩ 200 103 10
            (Reachable.create demoDb0 demoCreateReq none 100 101 102
              (Reachable.init demoUsers))
            rfl)
          rfl)
        rfl)
      rfl
  · intro h
    have hcases : demoDb5.cases = [demoCaseFinal] := rfl
    have hmem : demoCaseFinal ∈ demoDb5.cases := by
      rw [hcases]; exact List.mem_cons_self _ _
    have h2 := (h demoCaseFinal hmem).2
    rw [show demoCaseFinal.volunteerCount = 0 from rfl,
      show activeVolunteerCount demoDb5 demoCaseFinal.id = 1 from rfl] at h2
    exact absurd h2 (by decide)

/-! ### C10: anonymous cases can never be updated or soft-deleted -/

/-- C10: for a case without a reporter, Update and Delete fail with Forbidden
for every caller (the operations return no successor state on error, so the
store is untouched). -/
theorem c10_anonymous_case_immutable (db : DB) (id userId updateId : Nat)
    (req : UpdateCaseRequest) (c : Case)
    (hc : caseRepoGetByID db id = some c) (hanon : c.reporterId = none) :
    caseServiceUpdate db id userId req updateId = .error errForbidden ∧
      caseServiceDelete db id userId = .error errForbidden := by
  constructor
  · simp only [caseServiceUpdate, hc]
    rw [if_pos (Or.inl hanon)]
  · simp only [caseServiceDelete, hc]
    rw [if_pos (Or.inl hanon)]

/-- Witness for C10 on the demo anonymous case. -/
theorem c10_anonymous_case_immutable_witness :
    caseServiceUpdate demoDb1 100 7 ⟨none, none, none, none, none, none⟩ 300 =
        .error errForbidden ∧
      caseServiceDelete demoDb1 100 7 = .error errForbidden :=
  c10_anonymous_case_immutable demoDb1 100 7 300 ⟨none, none, none, none, none, none⟩
    demoCasePending rfl rfl

end BambooRescue
